import Mathlib

/-!
# Verification of the EVE ensemble-variant-detection pipeline

Shallow embedding of `src/eve.py` (the 198-line pipeline skeleton) together
with the components its specification describes but the skeleton leaves as
placeholder comments (Merge Engine, Output Writer, run-level error model).
Definitions translated from the source keep the source's behaviour, including
its slips (the `args.bam == args.input_reads[0]` comparison-instead-of-
assignment, silent skipping of unrecognized detector names, timestamp-named
working directories).  Components absent from the source are modelled from the
spec and carry a doc comment saying so.
-/

namespace EVE

/-! ## Path model: `os.path.join` as used by `eve.py`

`os.path.join(a, b)` on POSIX: if `b` is absolute it replaces everything so
far; if `a` is empty the result is `b`; if `a` already ends with the
separator the parts are concatenated directly; otherwise a separator is
inserted. -/

/-- Python's `b.startswith('/')` as evaluated on the path components. -/
def startsWithSlash (s : String) : Bool := s.data.head? = some '/'

/-- Python's `s.endswith('/')` on the first path component. -/
def endsWithSlash (s : String) : Bool := s.data.getLast? = some '/'

/-- Model of POSIX `os.path.join` restricted to two components, which is how
`eve.py` always calls it (three-component calls associate to the left). -/
def pathJoin (a b : String) : String :=
  if startsWithSlash b then b
  else if a = "" then b
  else if endsWithSlash a then a ++ b
  else a ++ "/" ++ b

/-- Python's `s.endswith(suffix)`, evaluated on the character lists. -/
def strEndsWith (s suffix : String) : Bool := suffix.data.isSuffixOf s.data

/-- Helper for `splitComma`: walk the characters, cutting at commas; `acc`
holds the current field reversed. -/
def splitCommaAux : List Char → List Char → List String
  | [], acc => [String.mk acc.reverse]
  | ch :: rest, acc =>
    if ch = ',' then String.mk acc.reverse :: splitCommaAux rest []
    else splitCommaAux rest (ch :: acc)

/-- Python's `s.split(',')`: the fields between commas; the empty string
yields one empty field. -/
def splitComma (s : String) : List String := splitCommaAux s.data []

/-! ## The argparse namespace of `EVE.parse_args` (src/eve.py lines 159-194)

`argparse` assigns exactly the declared destinations: `input_reads`,
`output`, `fasta`, `gff`, `mapper`, `variant_detectors`,
`working_directory`.  No `bam` destination is ever declared, and line 192
(`args.bam == args.input_reads[0]`) is a comparison, not an assignment, so
the `bam` attribute is never set.  The `bam : Option String` field models
attribute presence on the namespace object: `none` means the attribute is
absent and reading it raises `AttributeError`. -/

structure Namespace where
  input_reads : List String
  output : Option String
  fasta : String
  gff : String
  mapper : String
  variant_detectors : String
  working_directory : String
  bam : Option String
deriving DecidableEq, Repr

/-- The Python exceptions `eve.py` can raise on the paths the claims cover. -/
inductive PyError where
  | ioError (msg : String)
  | attributeError (msg : String)
  | configurationError (msg : String)
deriving DecidableEq, Repr

/-- Reading `args.bam`: succeeds with the stored path when the attribute was
assigned, raises `AttributeError` when it never was (src/eve.py line 42 and
line 192). -/
def getAttrBam (args : Namespace) : Except PyError String :=
  match args.bam with
  | some b => Except.ok b
  | none => Except.error (PyError.attributeError "EVE instance has no attribute bam")

/-- The validation part of `EVE.parse_args` (src/eve.py lines 182-194),
applied to the namespace produced by `parser.parse_args()`.  `fileIsFile`
models `os.path.isfile`.  Line 192 (`args.bam == args.input_reads[0]`)
evaluates `args.bam` first, which raises `AttributeError` because the
attribute was never assigned; when it would succeed the comparison's result
is discarded and no assignment happens. -/
def validateArgs (fileIsFile : String → Bool) (args : Namespace) :
    Except PyError Namespace :=
  if args.input_reads.length > 2 then
    Except.error (PyError.ioError "Too many input arguments specified")
  else if fileIsFile args.gff = false then
    Except.error (PyError.ioError "Invalid GFF filepath specified")
  else if args.input_reads.length = 1 ∧
      strEndsWith (args.input_reads.headD "") ".bam" = true then
    match getAttrBam args with
    | Except.error e => Except.error e
    | Except.ok _ => Except.ok args
  else
    Except.ok args

/-- Model of `EVE.parse_args` (src/eve.py lines 159-194): `argparse` fills the
declared destinations (never `bam`), then the validation runs. -/
def parseArgs (fileIsFile : String → Bool) (input_reads : List String)
    (output : Option String)
    (fasta gff mapper variant_detectors working_directory : String) :
    Except PyError Namespace :=
  validateArgs fileIsFile
    { input_reads := input_reads, output := output, fasta := fasta,
      gff := gff, mapper := mapper, variant_detectors := variant_detectors,
      working_directory := working_directory, bam := none }

/-! ## Mapper loading (src/eve.py lines 25-27) -/

/-- The only mapper class the code ever constructs. -/
inductive Mapper where
  | bwaMapper
deriving DecidableEq, Repr

/-- Source lines 26-27: `if 'bam' in self.args: self.mapper = mappers.BWAMapper()`.
`'bam' in self.args` tests whether the namespace carries the attribute;
the `-m, --mapper` value is never consulted. -/
def loadMapper (args : Namespace) : Option Mapper :=
  if args.bam.isSome then some Mapper.bwaMapper else none

/-! ## Detector configuration lookup and detector loading
(src/eve.py lines 29-43) -/

/-- Path `config/detectors/<name>.yaml` as built on line 35 of the source. -/
def yamlConfPath (detector : String) : String :=
  pathJoin (pathJoin "config" "detectors") (detector ++ ".yaml")

/-- Path `config/detectors/<name>.txt` as built on line 37 of the source. -/
def txtConfPath (detector : String) : String :=
  pathJoin (pathJoin "config" "detectors") (detector ++ ".txt")

/-- Config resolution for one detector (src/eve.py lines 35-37): take the
`.yaml` path; if that file does not exist, fall back to the `.txt` path.
Nothing is raised when the `.txt` path does not exist either. -/
def resolveDetectorConfig (fileExists : String → Bool) (detector : String) :
    String :=
  let conf := yamlConfPath detector
  if fileExists conf then conf else txtConfPath detector

/-- The detector objects `EVE.__init__` can construct. -/
inductive Detector where
  | mpileupDetector (bam fasta conf workingDir : String)
deriving DecidableEq, Repr

/-- The loop body of `EVE.__init__` over the split detector list
(src/eve.py lines 32-43): resolve the config path, then construct a
detector only for the name `mpileup` (reading `self.args.bam`, which
raises when the attribute is absent); every other name is skipped with no
error of any kind. -/
def loadDetectorsList (fileExists : String → Bool) (args : Namespace)
    (workingDir : String) : List String → Except PyError (List Detector)
  | [] => Except.ok []
  | d :: rest =>
    let conf := resolveDetectorConfig fileExists d
    if d = "mpileup" then
      match getAttrBam args with
      | Except.error e => Except.error e
      | Except.ok bam =>
        match loadDetectorsList fileExists args workingDir rest with
        | Except.error e => Except.error e
        | Except.ok ds =>
          Except.ok (Detector.mpileupDetector bam args.fasta conf workingDir :: ds)
    else
      loadDetectorsList fileExists args workingDir rest

/-- Detector loading in `EVE.__init__` (src/eve.py lines 29-43):
iterate over `self.args.variant_detectors.split(',')`. -/
def loadDetectors (fileExists : String → Bool) (args : Namespace)
    (workingDir : String) : Except PyError (List Detector) :=
  loadDetectorsList fileExists args workingDir
    (splitComma args.variant_detectors)

/-! ## Working directories (src/eve.py lines 66-75)

`create_working_directories` names the run's working directory after
`datetime.datetime.utcnow().strftime('%Y%m%d%H%M%S')` — a fourteen-digit
UTC timestamp with one-second resolution — joined under the
`--working-directory` argument. -/

/-- The ASCII digit character for `d % 10`. -/
def digitChar (d : Nat) : Char := Char.ofNat (48 + d % 10)

/-- Fixed-width decimal rendering, most significant digit first, zero padded
(the behaviour of the zero-padded `strftime` fields). -/
def fixedDigits : Nat → Nat → List Char
  | 0, _ => []
  | w + 1, n => digitChar (n / 10 ^ w) :: fixedDigits w n

/-- Civil date from days since the Unix epoch (proleptic Gregorian
calendar), returned as (year, month, day). -/
def civilFromDays (days : Nat) : Nat × Nat × Nat :=
  let z := days + 719468
  let era := z / 146097
  let doe := z % 146097
  let yoe := (doe - doe / 1460 + doe / 36524 - doe / 146096) / 365
  let y := yoe + era * 400
  let doy := doe - (365 * yoe + yoe / 4 - yoe / 100)
  let mp := (5 * doy + 2) / 153
  let d := doy - (153 * mp + 2) / 5 + 1
  let m := if mp < 10 then mp + 3 else mp - 9
  (if m ≤ 2 then y + 1 else y, m, d)

/-- Model of `datetime.datetime.utcnow().strftime('%Y%m%d%H%M%S')` as a function of
the current time in whole seconds since the Unix epoch: the timestamp is
rendered at one-second resolution, so any two instants within the same UTC
second produce the same string. -/
def strftimeYmdHMS (t : Nat) : String :=
  let days := t / 86400
  let secOfDay := t % 86400
  let ymd := civilFromDays days
  String.mk (fixedDigits 4 ymd.1 ++ fixedDigits 2 ymd.2.1 ++
    fixedDigits 2 ymd.2.2 ++ fixedDigits 2 (secOfDay / 3600) ++
    fixedDigits 2 (secOfDay % 3600 / 60) ++ fixedDigits 2 (secOfDay % 60))

/-- One invocation of the pipeline: the `--working-directory` argument it was
given, the UTC second at which `create_working_directories` calls
`utcnow()`, and an invocation counter distinguishing physical runs that
happen to share both (two processes started in the same second). -/
structure Run where
  workingDirectory : String
  startSecond : Nat
  invocationId : Nat
deriving DecidableEq, Repr

/-- Source line 70, `self.working_dir = os.path.join(self.args.working_directory, now)`
(src/eve.py lines 68-70): the directory depends only on the
`--working-directory` argument and the formatted start timestamp. -/
def createWorkingDir (r : Run) : String :=
  pathJoin r.workingDirectory (strftimeYmdHMS r.startSecond)

/-! ## The ensemble core, modelled from the spec

`EVE.run` (src/eve.py lines 45-63) contains only placeholder comments for
the detector runner, the merge, the classifier and the final output; the
spec (§3, §4.3, §4.5, §7) describes these missing components, so they are
modelled here from the spec's words. -/

/-- Modelled from the spec: §3 Call Record — one variant observation from one
detector: chromosome id, 1-based position, reference allele, ordered
alternate alleles, detector identity, detector-native confidence, and opaque
raw evidence.  (The Call Record Model is absent from src/eve.py.) -/
structure CallRecord where
  chrom : String
  pos : Nat
  ref : String
  alts : List String
  detector : String
  conf : ℚ
  evidence : List (String × String)
deriving DecidableEq, Repr

/-- Modelled from the spec: §3 Detector Run Result — per-detector outcome,
either a set of Call Records (which carry their detector identity) or a
failure marker tagged with the detector identity and a reason.  (The
Detector Runner is absent from src/eve.py.) -/
inductive DetectorRunResult where
  | success (records : List CallRecord)
  | failure (detector : String) (reason : String)
deriving DecidableEq, Repr

/-- One grouping unit of the Merge Engine: a Call Record restricted to a
single alternate allele, keyed by the exact
(chromosome, position, reference, alternate) tuple of spec §4.3. -/
structure MergeEntry where
  chrom : String
  pos : Nat
  ref : String
  alt : String
  detector : String
  conf : ℚ
deriving DecidableEq, Repr

/-- Sort key for chromosome names (spec §4.3): natural numeric ordering for
all-digit names, lexicographic fallback for the rest; the raw name is kept
as the last component, so the key is injective. -/
def chromKey (c : String) : Lex (Nat × Lex (Nat × String)) :=
  if c ≠ "" ∧ c.all Char.isDigit then
    toLex (0, toLex (c.toNat?.getD 0, c))
  else
    toLex (1, toLex (0, c))

/-- Sort key of a (chromosome, position, reference) locus: ascending
(chromosome, position), ties broken by reference allele lexicographically
(spec §4.3). -/
def siteKeyOf (t : String × Nat × String) :
    Lex (Lex (Nat × Lex (Nat × String)) × Lex (Nat × String)) :=
  toLex (chromKey t.1, toLex (t.2.1, t.2.2))

/-- Full sort key of a merge entry; it determines the entry, so sorting by it
is canonical. -/
def entryKey (e : MergeEntry) :
    Lex (Lex (Nat × Lex (Nat × String)) ×
      Lex (Nat × Lex (String × Lex (String × Lex (String × ℚ))))) :=
  toLex (chromKey e.chrom,
    toLex (e.pos, toLex (e.ref, toLex (e.alt, toLex (e.detector, e.conf)))))

/-- Sort a list by an injective key and drop duplicates: the canonical
representation of a finite set of values, independent of arrival order. -/
def sortDedup {α K : Type} [DecidableEq α] [LinearOrder K] (key : α → K)
    (l : List α) : List α :=
  List.insertionSort (fun a b => key a ≤ key b) l.dedup

/-- Modelled from the spec: §4.3 — "iterate all successful Call Records from
all detectors"; a failure marker contributes zero Call Records (§3). -/
def successRecords (rs : List DetectorRunResult) : List CallRecord :=
  rs.flatMap fun r =>
    match r with
    | DetectorRunResult.success recs => recs
    | DetectorRunResult.failure _ _ => []

/-- One merge entry per alternate allele of a Call Record (the grouping key
of spec §4.3 includes the alternate allele). -/
def entriesOfRecord (rec : CallRecord) : List MergeEntry :=
  rec.alts.map fun a =>
    { chrom := rec.chrom, pos := rec.pos, ref := rec.ref, alt := a,
      detector := rec.detector, conf := rec.conf }

/-- All grouping units of all successful Call Records. -/
def entries (rs : List DetectorRunResult) : List MergeEntry :=
  (successRecords rs).flatMap entriesOfRecord

/-- The entries in canonical (sorted, duplicate-free) form: the grouping
step of spec §4.3 made order-insensitive. -/
def canonEntries (rs : List DetectorRunResult) : List MergeEntry :=
  sortDedup entryKey (entries rs)

/-- Modelled from the spec: §3 Candidate Site — one (chromosome, position,
reference allele) locus with the distinct alternate alleles observed across
detectors; per alternate allele it holds the supporting detector identities
and confidence values (§4.3).  (The Merge Engine is absent from
src/eve.py.) -/
structure CandidateSite where
  chrom : String
  pos : Nat
  ref : String
  alts : List (String × List (String × ℚ))
deriving DecidableEq, Repr

/-- The detector identities and confidence values supporting one exact
(chromosome, position, reference, alternate) group (spec §4.3), in
canonical order. -/
def supportersOf (es : List MergeEntry) (c : String) (p : Nat) (r a : String) :
    List (String × ℚ) :=
  sortDedup (fun pr : String × ℚ => toLex pr)
    ((es.filter fun e => e.chrom = c ∧ e.pos = p ∧ e.ref = r ∧ e.alt = a).map
      fun e => (e.detector, e.conf))

/-- The distinct alternate alleles of one locus with their supporters
(the roll-up of spec §4.3), alternates in lexicographic order. -/
def siteAltsOf (es : List MergeEntry) (c : String) (p : Nat) (r : String) :
    List (String × List (String × ℚ)) :=
  (sortDedup (fun a : String => a)
    ((es.filter fun e => e.chrom = c ∧ e.pos = p ∧ e.ref = r).map
      fun e => e.alt)).map
    fun a => (a, supportersOf es c p r a)

/-- The (chromosome, position, reference) locus of a merge entry. -/
def tripleOf (e : MergeEntry) : String × Nat × String :=
  (e.chrom, e.pos, e.ref)

/-- Build the Candidate Sites from canonical entries: one site per distinct
locus, loci in the deterministic order of spec §4.3. -/
def mergeEntries (es : List MergeEntry) : List CandidateSite :=
  (sortDedup siteKeyOf (es.map tripleOf)).map
    fun t =>
      { chrom := t.1, pos := t.2.1, ref := t.2.2,
        alts := siteAltsOf es t.1 t.2.1 t.2.2 }

/-- Modelled from the spec: §4.3 Merge Engine — group the successful Call
Records by exact (chromosome, position, reference, alternate) key, record
the supporting detector identities and confidence values per group, roll
groups sharing a locus into one Candidate Site, and order sites
deterministically. -/
def merge (rs : List DetectorRunResult) : List CandidateSite :=
  mergeEntries (canonEntries rs)

/-- Modelled from the spec: §4.5/§6 Output Writer serialization — one text
record per Candidate Site (chromosome, position, reference allele, the
alternate alleles with their supporting detectors), in merge order.  The
ensemble confidence column produced by the Scorer is outside the claims'
scope. -/
def serializeAlt (a : String × List (String × ℚ)) : String :=
  a.1 ++ ":" ++ String.intercalate "," (a.2.map Prod.fst)

/-- One output line per Candidate Site. -/
def serializeSite (s : CandidateSite) : String :=
  s.chrom ++ "\t" ++ toString s.pos ++ "\t" ++ s.ref ++ "\t" ++
    String.intercalate ";" (s.alts.map serializeAlt)

/-- The full output text. -/
def serializeSites (sites : List CandidateSite) : String :=
  String.intercalate "\n" (sites.map serializeSite)

/-- A flat filesystem model: association list from path to contents, later
entries shadowed by earlier ones. -/
structure FS where
  files : List (String × String)
deriving DecidableEq, Repr

/-- Contents at a path, if the file exists. -/
def FS.read (fs : FS) (p : String) : Option String :=
  (fs.files.find? fun kv => kv.1 = p).map Prod.snd

/-- Create or overwrite a file. -/
def FS.setFile (fs : FS) (p c : String) : FS :=
  FS.mk ((p, c) :: fs.files)

/-- Delete a file. -/
def FS.removeFile (fs : FS) (p : String) : FS :=
  FS.mk (fs.files.filter fun kv => kv.1 ≠ p)

/-- The run-level error kinds of spec §7 reachable in the modelled pipeline. -/
inductive RunError where
  | noUsableDetectorOutputsError
  | outputWriteError
deriving DecidableEq, Repr

/-- Modelled from the spec: §4.5 Output Writer (absent from src/eve.py —
line 62 holds only a placeholder comment).  The content is first written to
the temporary location; only on full success (`finalizeOk`) is it moved
into place at the destination; otherwise nothing reaches the destination
and `OutputWriteError` is reported. -/
def writeOutput (finalizeOk : Bool) (dest tmp content : String) (fs : FS) :
    FS × Option RunError :=
  let fs1 := fs.setFile tmp content
  if finalizeOk then ((fs1.removeFile tmp).setFile dest content, none)
  else (fs1, some RunError.outputWriteError)

/-- Success marker of a Detector Run Result. -/
def isSuccess (r : DetectorRunResult) : Bool :=
  match r with
  | DetectorRunResult.success _ => true
  | DetectorRunResult.failure _ _ => false

/-- How many detectors succeeded. -/
def countSuccesses (rs : List DetectorRunResult) : Nat :=
  (rs.filter isSuccess).length

/-- Modelled from the spec: §7/§8 run-level behaviour of `EVE.run` (the body
in src/eve.py lines 45-63 is placeholder comments): if zero detectors
succeed, the run fails with `NoUsableDetectorOutputsError` and writes
nothing; otherwise the merged, scorer-accepted sites are written atomically.
The result is (resulting filesystem, reported error); error `none` is the
run's success status (`sys.exit(app.run())`, src/eve.py line 198). -/
def runPipeline (finalizeOk : Bool) (accept : CandidateSite → Bool)
    (dest tmp : String) (rs : List DetectorRunResult) (fs : FS) :
    FS × Option RunError :=
  if countSuccesses rs = 0 then
    (fs, some RunError.noUsableDetectorOutputsError)
  else
    writeOutput finalizeOk dest tmp
      (serializeSites ((merge rs).filter accept)) fs

/-! ## Claim-level predicates about merge output and merge input -/

/-- The merge output lists the (chromosome, position, reference, alternate)
tuple: some Candidate Site at that locus carries that alternate allele. -/
def sitesHaveTuple (sites : List CandidateSite) (c : String) (p : Nat)
    (r a : String) : Prop :=
  ∃ s ∈ sites, s.chrom = c ∧ s.pos = p ∧ s.ref = r ∧ ∃ pr ∈ s.alts, pr.1 = a

/-- Detector `d` is attributed to the tuple in the merge output. -/
def sitesAttribute (sites : List CandidateSite) (c : String) (p : Nat)
    (r a d : String) : Prop :=
  ∃ s ∈ sites, s.chrom = c ∧ s.pos = p ∧ s.ref = r ∧
    ∃ pr ∈ s.alts, pr.1 = a ∧ ∃ q : ℚ, (d, q) ∈ pr.2

/-- A Call Record matches the tuple exactly (spec §3: same call iff
chromosome, position, reference and alternate all match). -/
def recordMatches (c : String) (p : Nat) (r a : String)
    (rec : CallRecord) : Prop :=
  rec.chrom = c ∧ rec.pos = p ∧ rec.ref = r ∧ a ∈ rec.alts

/-- Some detector's successful result contains a Call Record matching the
tuple. -/
def tupleReported (rs : List DetectorRunResult) (c : String) (p : Nat)
    (r a : String) : Prop :=
  ∃ recs, DetectorRunResult.success recs ∈ rs ∧
    ∃ rec ∈ recs, recordMatches c p r a rec

/-- Detector `d` contributed a Call Record matching the tuple. -/
def detectorReports (rs : List DetectorRunResult) (c : String) (p : Nat)
    (r a d : String) : Prop :=
  ∃ recs, DetectorRunResult.success recs ∈ rs ∧
    ∃ rec ∈ recs, recordMatches c p r a rec ∧ rec.detector = d

/-! ## Sample data used by witnesses and counterexamples -/

/-- Sample Call Record: detector gatk reports chr1:100 A→T (spec §8). -/
def sampleRecordA : CallRecord :=
  { chrom := "chr1", pos := 100, ref := "A", alts := ["T"],
    detector := "gatk", conf := 9, evidence := [] }

/-- Sample Call Record: detector varscan reports chr1:100 A→T. -/
def sampleRecordB : CallRecord :=
  { chrom := "chr1", pos := 100, ref := "A", alts := ["T"],
    detector := "varscan", conf := 7, evidence := [] }

/-- Sample Call Record: detector varscan reports chr1:200 G→C. -/
def sampleRecordC : CallRecord :=
  { chrom := "chr1", pos := 200, ref := "G", alts := ["C"],
    detector := "varscan", conf := 8, evidence := [] }

/-- Two successful Detector Run Results over the sample records. -/
def sampleResults : List DetectorRunResult :=
  [DetectorRunResult.success [sampleRecordA],
   DetectorRunResult.success [sampleRecordB, sampleRecordC]]

/-! ## Lemmas: canonical sorting -/

/-- Sorting and deduplicating does not change membership. -/
theorem mem_sortDedup {α K : Type} [DecidableEq α] [LinearOrder K]
    (key : α → K) (l : List α) (a : α) :
    a ∈ sortDedup key l ↔ a ∈ l := by
  unfold sortDedup
  rw [(List.perm_insertionSort _ _).mem_iff, List.mem_dedup]

/-- With an injective sort key, `sortDedup` is a canonical form: permuted
inputs produce the identical list. -/
theorem sortDedup_eq_of_perm {α K : Type} [DecidableEq α] [LinearOrder K]
    {key : α → K} (hinj : Function.Injective key) {l₁ l₂ : List α}
    (h : l₁.Perm l₂) : sortDedup key l₁ = sortDedup key l₂ := by
  haveI : IsTotal α (fun a b => key a ≤ key b) :=
    ⟨fun a b => le_total (key a) (key b)⟩
  haveI : IsTrans α (fun a b => key a ≤ key b) :=
    ⟨fun a b c hab hbc => le_trans hab hbc⟩
  haveI : IsAntisymm α (fun a b => key a ≤ key b) :=
    ⟨fun a b hab hba => hinj (le_antisymm hab hba)⟩
  exact List.eq_of_perm_of_sorted
    (((List.perm_insertionSort _ _).trans h.dedup).trans
      (List.perm_insertionSort _ _).symm)
    (List.sorted_insertionSort _ _)
    (List.sorted_insertionSort _ _)

/-- The chromosome sort key determines the chromosome name. -/
theorem chromKey_injective : Function.Injective chromKey := by
  intro a b h
  unfold chromKey at h
  split at h <;> split at h <;> simp_all [toLex_inj, Prod.mk.injEq]

/-- The locus sort key determines the locus. -/
theorem siteKeyOf_injective : Function.Injective siteKeyOf := by
  rintro ⟨a1, a2, a3⟩ ⟨b1, b2, b3⟩ h
  simp only [siteKeyOf, toLex_inj, Prod.mk.injEq] at h
  simp only [Prod.mk.injEq]
  exact ⟨chromKey_injective h.1, h.2.1, h.2.2⟩

/-- The full entry sort key determines the entry. -/
theorem entryKey_injective : Function.Injective entryKey := by
  rintro ⟨c1, p1, r1, a1, d1, q1⟩ ⟨c2, p2, r2, a2, d2, q2⟩ h
  simp only [entryKey, toLex_inj, Prod.mk.injEq] at h
  simp only [MergeEntry.mk.injEq]
  exact ⟨chromKey_injective h.1, h.2.1, h.2.2.1, h.2.2.2.1, h.2.2.2.2.1,
    h.2.2.2.2.2⟩

/-! ## Lemmas: membership in the merge input -/

/-- A Call Record is among the successful records iff some success result
contains it. -/
theorem mem_successRecords {rs : List DetectorRunResult} {rec : CallRecord} :
    rec ∈ successRecords rs ↔
      ∃ recs, DetectorRunResult.success recs ∈ rs ∧ rec ∈ recs := by
  unfold successRecords
  rw [List.mem_flatMap]
  constructor
  · rintro ⟨r, hr, hrec⟩
    cases r with
    | success recs => exact ⟨recs, hr, hrec⟩
    | failure d m => simp at hrec
  · rintro ⟨recs, hr, hrec⟩
    exact ⟨DetectorRunResult.success recs, hr, hrec⟩

/-- The entries of one Call Record: one per alternate allele, all other
fields copied. -/
theorem mem_entriesOfRecord {rec : CallRecord} {e : MergeEntry} :
    e ∈ entriesOfRecord rec ↔
      e.chrom = rec.chrom ∧ e.pos = rec.pos ∧ e.ref = rec.ref ∧
      e.alt ∈ rec.alts ∧ e.detector = rec.detector ∧ e.conf = rec.conf := by
  obtain ⟨ec, ep, er, ea, ed, ecf⟩ := e
  unfold entriesOfRecord
  rw [List.mem_map]
  constructor
  · rintro ⟨a, ha, h⟩
    rw [MergeEntry.mk.injEq] at h
    obtain ⟨h1, h2, h3, h4, h5, h6⟩ := h
    exact ⟨h1.symm, h2.symm, h3.symm, h4 ▸ ha, h5.symm, h6.symm⟩
  · rintro ⟨h1, h2, h3, h4, h5, h6⟩
    refine ⟨ea, h4, ?_⟩
    rw [MergeEntry.mk.injEq]
    exact ⟨h1.symm, h2.symm, h3.symm, rfl, h5.symm, h6.symm⟩

/-- Membership in the canonical entry list, phrased over the raw results. -/
theorem mem_canonEntries {rs : List DetectorRunResult} {e : MergeEntry} :
    e ∈ canonEntries rs ↔
      ∃ recs, DetectorRunResult.success recs ∈ rs ∧ ∃ rec ∈ recs,
        e ∈ entriesOfRecord rec := by
  unfold canonEntries entries
  rw [mem_sortDedup, List.mem_flatMap]
  constructor
  · rintro ⟨rec, hrec, he⟩
    obtain ⟨recs, hrs, hin⟩ := mem_successRecords.mp hrec
    exact ⟨recs, hrs, rec, hin, he⟩
  · rintro ⟨recs, hrs, rec, hin, he⟩
    exact ⟨rec, mem_successRecords.mpr ⟨recs, hrs, hin⟩, he⟩

/-! ## Lemmas: the filesystem model -/

/-- Reading back a freshly written file. -/
theorem FS.read_setFile_same (fs : FS) (p c : String) :
    (fs.setFile p c).read p = some c := by
  simp [FS.read, FS.setFile, List.find?]

/-- Writing one path leaves every other path unchanged. -/
theorem FS.read_setFile_other (fs : FS) (p c q : String) (h : q ≠ p) :
    (fs.setFile p c).read q = fs.read q := by
  simp only [FS.read, FS.setFile, List.find?]
  rw [decide_eq_false (by exact fun hpq => h (hpq.symm))]

/-- Removing one path leaves every other path unchanged. -/
theorem FS.read_removeFile_other (fs : FS) (p q : String) (h : q ≠ p) :
    (fs.removeFile p).read q = fs.read q := by
  obtain ⟨files⟩ := fs
  simp only [FS.read, FS.removeFile]
  induction files with
  | nil => rfl
  | cons kv rest ih =>
    rw [List.filter_cons, List.find?_cons]
    by_cases hkp : kv.1 = p
    · have h1 : decide (kv.1 ≠ p) = false := by
        rw [decide_eq_false_iff_not]
        exact fun hcon => hcon hkp
      have h2 : decide (kv.1 = q) = false := by
        rw [decide_eq_false_iff_not, hkp]
        exact fun hh => h hh.symm
      rw [h1, h2, if_neg Bool.false_ne_true]
      exact ih
    · have h1 : decide (kv.1 ≠ p) = true := by
        rw [decide_eq_true_eq]
        exact hkp
      rw [h1, if_pos rfl, List.find?_cons]
      cases h2 : decide (kv.1 = q) with
      | true => rfl
      | false => exact ih

/-! ## Lemmas: paths and timestamps -/

/-- Appending on the left of a `String` is cancellable. -/
theorem string_append_left_cancel {a b c : String} (h : a ++ b = a ++ c) :
    b = c := by
  apply String.ext
  have h2 := congrArg String.data h
  rw [String.data_append, String.data_append] at h2
  exact List.append_cancel_left h2

/-- For relative second components, `pathJoin` with a fixed first component
is injective in the second. -/
theorem pathJoin_right_inj {a b₁ b₂ : String}
    (h₁ : startsWithSlash b₁ = false) (h₂ : startsWithSlash b₂ = false)
    (h : pathJoin a b₁ = pathJoin a b₂) : b₁ = b₂ := by
  unfold pathJoin at h
  rw [h₁, h₂] at h
  simp only [Bool.false_eq_true, if_false] at h
  by_cases ha : a = ""
  · rw [if_pos ha, if_pos ha] at h
    exact h
  · rw [if_neg ha, if_neg ha] at h
    by_cases hs : endsWithSlash a = true
    · rw [if_pos hs, if_pos hs] at h
      exact string_append_left_cancel h
    · rw [if_neg hs, if_neg hs] at h
      exact string_append_left_cancel (a := a ++ "/") h

/-- Decimal digit characters are never the path separator. -/
theorem digitChar_ne_slash (d : Nat) : digitChar d ≠ '/' := by
  unfold digitChar
  have h10 : d % 10 < 10 := Nat.mod_lt _ (by decide)
  generalize d % 10 = k at h10
  interval_cases k <;> decide

/-- The formatted timestamp starts with a digit of the year, never with the
path separator. -/
theorem startsWithSlash_strftime (t : Nat) :
    startsWithSlash (strftimeYmdHMS t) = false := by
  have hd : (strftimeYmdHMS t).data.head? =
      some (digitChar ((civilFromDays (t / 86400)).1 / 10 ^ 3)) := rfl
  unfold startsWithSlash
  rw [hd, decide_eq_false_iff_not]
  intro hcon
  exact digitChar_ne_slash _ (Option.some.inj hcon)

/-! ## Lemmas: membership in the merge output -/

/-- Supporters of a group are exactly the (detector, confidence) pairs of
matching entries. -/
theorem mem_supportersOf {es : List MergeEntry} {c : String} {p : Nat}
    {r a d : String} {q : ℚ} :
    (d, q) ∈ supportersOf es c p r a ↔
      ∃ e ∈ es, e.chrom = c ∧ e.pos = p ∧ e.ref = r ∧ e.alt = a ∧
        e.detector = d ∧ e.conf = q := by
  unfold supportersOf
  rw [mem_sortDedup, List.mem_map]
  constructor
  · rintro ⟨e, he, heq⟩
    rw [List.mem_filter] at he
    obtain ⟨hes, hcond⟩ := he
    obtain ⟨h1, h2, h3, h4⟩ := of_decide_eq_true hcond
    rw [Prod.mk.injEq] at heq
    exact ⟨e, hes, h1, h2, h3, h4, heq.1, heq.2⟩
  · rintro ⟨e, he, h1, h2, h3, h4, h5, h6⟩
    refine ⟨e, List.mem_filter.mpr ⟨he, decide_eq_true ⟨h1, h2, h3, h4⟩⟩, ?_⟩
    rw [Prod.mk.injEq]
    exact ⟨h5, h6⟩

/-- The alternate-allele slots of a locus are exactly the alternates of
matching entries, each paired with its supporters. -/
theorem mem_siteAltsOf {es : List MergeEntry} {c : String} {p : Nat}
    {r : String} {pr : String × List (String × ℚ)} :
    pr ∈ siteAltsOf es c p r ↔
      (∃ e ∈ es, e.chrom = c ∧ e.pos = p ∧ e.ref = r ∧ e.alt = pr.1) ∧
        pr.2 = supportersOf es c p r pr.1 := by
  obtain ⟨pa, ps⟩ := pr
  unfold siteAltsOf
  rw [List.mem_map]
  constructor
  · rintro ⟨a, ha, heq⟩
    rw [Prod.mk.injEq] at heq
    obtain ⟨rfl, rfl⟩ := heq
    rw [mem_sortDedup, List.mem_map] at ha
    obtain ⟨e, he, hea⟩ := ha
    rw [List.mem_filter] at he
    obtain ⟨hes, hcond⟩ := he
    obtain ⟨h1, h2, h3⟩ := of_decide_eq_true hcond
    exact ⟨⟨e, hes, h1, h2, h3, hea⟩, rfl⟩
  · rintro ⟨⟨e, he, h1, h2, h3, h4⟩, hps⟩
    refine ⟨pa, ?_, ?_⟩
    · rw [mem_sortDedup, List.mem_map]
      exact ⟨e, List.mem_filter.mpr ⟨he, decide_eq_true ⟨h1, h2, h3⟩⟩, h4⟩
    · rw [Prod.mk.injEq]
      exact ⟨rfl, hps.symm⟩

/-- The Candidate Sites are exactly the loci of the entries, each built with
its alternate slots. -/
theorem mem_mergeEntries {es : List MergeEntry} {s : CandidateSite} :
    s ∈ mergeEntries es ↔
      ∃ t, t ∈ es.map tripleOf ∧
        s = CandidateSite.mk t.1 t.2.1 t.2.2 (siteAltsOf es t.1 t.2.1 t.2.2) := by
  unfold mergeEntries
  rw [List.mem_map]
  constructor
  · rintro ⟨t, ht, heq⟩
    rw [mem_sortDedup] at ht
    exact ⟨t, ht, heq.symm⟩
  · rintro ⟨t, ht, heq⟩
    exact ⟨t, (mem_sortDedup _ _ _).mpr ht, heq.symm⟩

/-- Tuples listed by `mergeEntries` are exactly the tuples of the entries. -/
theorem sitesHaveTuple_mergeEntries {es : List MergeEntry} {c : String}
    {p : Nat} {r a : String} :
    sitesHaveTuple (mergeEntries es) c p r a ↔
      ∃ e ∈ es, e.chrom = c ∧ e.pos = p ∧ e.ref = r ∧ e.alt = a := by
  unfold sitesHaveTuple
  constructor
  · rintro ⟨s, hs, hc, hp, hr, pr, hpr, ha⟩
    rw [mem_mergeEntries] at hs
    obtain ⟨t, ht, rfl⟩ := hs
    rw [mem_siteAltsOf] at hpr
    obtain ⟨⟨e, he, h1, h2, h3, h4⟩, _⟩ := hpr
    exact ⟨e, he, h1.trans hc, h2.trans hp, h3.trans hr, h4.trans ha⟩
  · rintro ⟨e, he, h1, h2, h3, h4⟩
    refine ⟨CandidateSite.mk c p r (siteAltsOf es c p r), ?_, rfl, rfl, rfl,
      ⟨a, supportersOf es c p r a⟩, ?_, rfl⟩
    · rw [mem_mergeEntries]
      refine ⟨(c, p, r), ?_, rfl⟩
      rw [List.mem_map]
      refine ⟨e, he, ?_⟩
      unfold tripleOf
      rw [h1, h2, h3]
    · rw [mem_siteAltsOf]
      exact ⟨⟨e, he, h1, h2, h3, h4⟩, rfl⟩

/-- Attributions listed by `mergeEntries` are exactly the detectors of the
entries with that tuple. -/
theorem sitesAttribute_mergeEntries {es : List MergeEntry} {c : String}
    {p : Nat} {r a d : String} :
    sitesAttribute (mergeEntries es) c p r a d ↔
      ∃ e ∈ es, e.chrom = c ∧ e.pos = p ∧ e.ref = r ∧ e.alt = a ∧
        e.detector = d := by
  unfold sitesAttribute
  constructor
  · rintro ⟨s, hs, hc, hp, hr, pr, hpr, ha, q, hq⟩
    rw [mem_mergeEntries] at hs
    obtain ⟨t, ht, rfl⟩ := hs
    rw [mem_siteAltsOf] at hpr
    obtain ⟨-, hsup⟩ := hpr
    rw [hsup] at hq
    rw [mem_supportersOf] at hq
    obtain ⟨e, he, h1, h2, h3, h4, h5, h6⟩ := hq
    exact ⟨e, he, h1.trans hc, h2.trans hp, h3.trans hr, h4.trans ha, h5⟩
  · rintro ⟨e, he, h1, h2, h3, h4, h5⟩
    refine ⟨CandidateSite.mk c p r (siteAltsOf es c p r), ?_, rfl, rfl, rfl,
      ⟨a, supportersOf es c p r a⟩, ?_, rfl, e.conf, ?_⟩
    · rw [mem_mergeEntries]
      refine ⟨(c, p, r), ?_, rfl⟩
      rw [List.mem_map]
      refine ⟨e, he, ?_⟩
      unfold tripleOf
      rw [h1, h2, h3]
    · rw [mem_siteAltsOf]
      exact ⟨⟨e, he, h1, h2, h3, h4⟩, rfl⟩
    · rw [mem_supportersOf]
      exact ⟨e, he, h1, h2, h3, h4, h5, rfl⟩

/-- An entry with the tuple exists in canonical form iff some successful
result reported the tuple. -/
theorem canonEntry_iff_tupleReported {rs : List DetectorRunResult}
    {c : String} {p : Nat} {r a : String} :
    (∃ e ∈ canonEntries rs,
        e.chrom = c ∧ e.pos = p ∧ e.ref = r ∧ e.alt = a) ↔
      tupleReported rs c p r a := by
  constructor
  · rintro ⟨e, he, h1, h2, h3, h4⟩
    rw [mem_canonEntries] at he
    obtain ⟨recs, hrs, rec, hrec, hent⟩ := he
    rw [mem_entriesOfRecord] at hent
    obtain ⟨g1, g2, g3, g4, g5, g6⟩ := hent
    exact ⟨recs, hrs, rec, hrec, g1.symm.trans h1, g2.symm.trans h2,
      g3.symm.trans h3, h4 ▸ g4⟩
  · rintro ⟨recs, hrs, rec, hrec, hm1, hm2, hm3, hm4⟩
    refine ⟨MergeEntry.mk c p r a rec.detector rec.conf, ?_, rfl, rfl, rfl, rfl⟩
    rw [mem_canonEntries]
    refine ⟨recs, hrs, rec, hrec, ?_⟩
    rw [mem_entriesOfRecord]
    exact ⟨hm1.symm, hm2.symm, hm3.symm, hm4, rfl, rfl⟩

/-- An entry with the tuple and detector exists in canonical form iff that
detector reported the tuple. -/
theorem canonEntry_iff_detectorReports {rs : List DetectorRunResult}
    {c : String} {p : Nat} {r a d : String} :
    (∃ e ∈ canonEntries rs,
        e.chrom = c ∧ e.pos = p ∧ e.ref = r ∧ e.alt = a ∧ e.detector = d) ↔
      detectorReports rs c p r a d := by
  constructor
  · rintro ⟨e, he, h1, h2, h3, h4, h5⟩
    rw [mem_canonEntries] at he
    obtain ⟨recs, hrs, rec, hrec, hent⟩ := he
    rw [mem_entriesOfRecord] at hent
    obtain ⟨g1, g2, g3, g4, g5, g6⟩ := hent
    exact ⟨recs, hrs, rec, hrec,
      ⟨g1.symm.trans h1, g2.symm.trans h2, g3.symm.trans h3, h4 ▸ g4⟩,
      g5.symm.trans h5⟩
  · rintro ⟨recs, hrs, rec, hrec, ⟨hm1, hm2, hm3, hm4⟩, hd⟩
    refine ⟨MergeEntry.mk c p r a rec.detector rec.conf, ?_, rfl, rfl, rfl,
      rfl, hd⟩
    rw [mem_canonEntries]
    refine ⟨recs, hrs, rec, hrec, ?_⟩
    rw [mem_entriesOfRecord]
    exact ⟨hm1.symm, hm2.symm, hm3.symm, hm4, rfl, rfl⟩

/-! ## Lemmas: detector loading -/

/-- Unfolding equation of `loadDetectorsList` on a cons cell. -/
theorem loadDetectorsList_cons (fileExists : String → Bool) (args : Namespace)
    (workingDir : String) (d : String) (rest : List String) :
    loadDetectorsList fileExists args workingDir (d :: rest) =
      if d = "mpileup" then
        match getAttrBam args with
        | Except.error e => Except.error e
        | Except.ok bam =>
          match loadDetectorsList fileExists args workingDir rest with
          | Except.error e => Except.error e
          | Except.ok ds =>
            Except.ok (Detector.mpileupDetector bam args.fasta
              (resolveDetectorConfig fileExists d) workingDir :: ds)
      else loadDetectorsList fileExists args workingDir rest := rfl

/-- Reading the absent attribute is the attribute error. -/
theorem getAttrBam_none {args : Namespace} (h : args.bam = none) :
    getAttrBam args =
      Except.error (PyError.attributeError "EVE instance has no attribute bam") := by
  unfold getAttrBam
  rw [h]

/-- Reading the attribute when present yields the stored value. -/
theorem getAttrBam_some {args : Namespace} {b : String}
    (h : args.bam = some b) : getAttrBam args = Except.ok b := by
  unfold getAttrBam
  rw [h]

/-- Every error of `getAttrBam` is an `AttributeError`. -/
theorem getAttrBam_error {args : Namespace} {e : PyError}
    (h : getAttrBam args = Except.error e) :
    ∃ m, e = PyError.attributeError m := by
  unfold getAttrBam at h
  cases hb : args.bam with
  | some b =>
    rw [hb] at h
    exact absurd h (by simp)
  | none =>
    rw [hb] at h
    exact ⟨"EVE instance has no attribute bam", (Except.error.inj h).symm⟩

/-- Every error of the detector-loading loop is an `AttributeError`; in
particular there is no `ConfigurationError` in the code. -/
theorem loadDetectorsList_error_attributeError {fileExists : String → Bool}
    {args : Namespace} {workingDir : String} {l : List String} {e : PyError}
    (h : loadDetectorsList fileExists args workingDir l = Except.error e) :
    ∃ m, e = PyError.attributeError m := by
  revert e
  induction l with
  | nil =>
    intro e h
    exact absurd h (by simp [loadDetectorsList])
  | cons d rest ih =>
    intro e h
    rw [loadDetectorsList_cons] at h
    by_cases hd : d = "mpileup"
    · rw [if_pos hd] at h
      cases hb : getAttrBam args with
      | error e2 =>
        rw [hb] at h
        obtain ⟨m, hm⟩ := getAttrBam_error hb
        exact ⟨m, (Except.error.inj h).symm.trans hm⟩
      | ok bam =>
        rw [hb] at h
        cases hr : loadDetectorsList fileExists args workingDir rest with
        | error e3 =>
          rw [hr] at h
          obtain ⟨m, hm⟩ := ih hr
          exact ⟨m, (Except.error.inj h).symm.trans hm⟩
        | ok ds =>
          rw [hr] at h
          exact absurd h (by simp)
    · rw [if_neg hd] at h
      exact ih h

/-- A detector list without `mpileup` loads no detector and raises nothing. -/
theorem loadDetectorsList_skip {fileExists : String → Bool}
    {args : Namespace} {workingDir : String} {l : List String}
    (h : "mpileup" ∉ l) :
    loadDetectorsList fileExists args workingDir l = Except.ok [] := by
  induction l with
  | nil => rfl
  | cons d rest ih =>
    rw [loadDetectorsList_cons]
    have hd : ¬d = "mpileup" := fun hcon => h (hcon ▸ List.mem_cons_self d rest)
    rw [if_neg hd]
    exact ih (fun hcon => h (List.mem_cons_of_mem d hcon))

/-- With the `bam` attribute present, the detector-loading loop always
succeeds, whatever the configuration files on disk. -/
theorem loadDetectorsList_ok_of_bam {fileExists : String → Bool}
    {args : Namespace} {workingDir : String} {b : String}
    (hb : args.bam = some b) (l : List String) :
    ∃ ds, loadDetectorsList fileExists args workingDir l = Except.ok ds := by
  induction l with
  | nil => exact ⟨[], rfl⟩
  | cons d rest ih =>
    obtain ⟨ds, hds⟩ := ih
    rw [loadDetectorsList_cons]
    by_cases hd : d = "mpileup"
    · rw [if_pos hd, getAttrBam_some hb, hds]
      exact ⟨Detector.mpileupDetector b args.fasta
        (resolveDetectorConfig fileExists d) workingDir :: ds, rfl⟩
    · rw [if_neg hd]
      exact ⟨ds, hds⟩

/-- With the `bam` attribute absent, a detector list containing `mpileup`
makes the loading loop raise an `AttributeError`. -/
theorem loadDetectorsList_mpileup_error {fileExists : String → Bool}
    {args : Namespace} {workingDir : String} {l : List String}
    (hb : args.bam = none) (h : "mpileup" ∈ l) :
    ∃ m, loadDetectorsList fileExists args workingDir l =
      Except.error (PyError.attributeError m) := by
  induction l with
  | nil => exact absurd h (List.not_mem_nil _)
  | cons d rest ih =>
    rw [loadDetectorsList_cons]
    by_cases hd : d = "mpileup"
    · rw [if_pos hd, getAttrBam_none hb]
      exact ⟨"EVE instance has no attribute bam", rfl⟩
    · rw [if_neg hd]
      rcases List.mem_cons.mp h with heq | hmem
      · exact absurd heq.symm hd
      · exact ih hmem

/-! ## Lemmas: permutation invariance of the merge input -/

/-- Permuting the Detector Run Results permutes the entry list. -/
theorem entries_perm {rs₁ rs₂ : List DetectorRunResult} (h : rs₁.Perm rs₂) :
    (entries rs₁).Perm (entries rs₂) := by
  unfold entries successRecords
  exact List.Perm.flatMap_right _ (List.Perm.flatMap_right _ h)

/-- The canonical entry list is invariant under permutation of the results. -/
theorem canonEntries_eq_of_perm {rs₁ rs₂ : List DetectorRunResult}
    (h : rs₁.Perm rs₂) : canonEntries rs₁ = canonEntries rs₂ :=
  sortDedup_eq_of_perm entryKey_injective (entries_perm h)

/-! ## C1: all detectors failing aborts the run without output -/

/-- C1: if zero detectors succeed, the run fails with
`NoUsableDetectorOutputsError` and the output destination is not created.
Settled against the spec-modelled `runPipeline` (§7, §8), since the body of
`EVE.run` is an empty skeleton in src/eve.py. -/
theorem run_zero_successes_raises_and_writes_nothing
    (finalizeOk : Bool) (accept : CandidateSite → Bool) (dest tmp : String)
    (rs : List DetectorRunResult) (fs : FS)
    (hfail : ∀ r ∈ rs, isSuccess r = false) (hdest : fs.read dest = none) :
    runPipeline finalizeOk accept dest tmp rs fs =
      (fs, some RunError.noUsableDetectorOutputsError) ∧
    ((runPipeline finalizeOk accept dest tmp rs fs).1).read dest = none := by
  have hc : countSuccesses rs = 0 := by
    unfold countSuccesses
    rw [List.length_eq_zero]
    exact List.filter_eq_nil_iff.mpr fun r hr => by rw [hfail r hr]; simp
  have h1 : runPipeline finalizeOk accept dest tmp rs fs =
      (fs, some RunError.noUsableDetectorOutputsError) := by
    unfold runPipeline
    rw [if_pos hc]
  refine ⟨h1, ?_⟩
  rw [h1]
  exact hdest

/-- Witness for C1: a run whose only detector failed. -/
theorem run_zero_successes_witness :
    runPipeline true (fun _ => true) "out/final.vcf" "out/final.vcf.tmp"
        [DetectorRunResult.failure "gatk" "non-zero exit"] (FS.mk []) =
      (FS.mk [], some RunError.noUsableDetectorOutputsError) ∧
    ((runPipeline true (fun _ => true) "out/final.vcf" "out/final.vcf.tmp"
        [DetectorRunResult.failure "gatk" "non-zero exit"] (FS.mk [])).1).read
      "out/final.vcf" = none :=
  run_zero_successes_raises_and_writes_nothing true (fun _ => true)
    "out/final.vcf" "out/final.vcf.tmp"
    [DetectorRunResult.failure "gatk" "non-zero exit"] (FS.mk [])
    (by decide) rfl

/-! ## C2: the merge output is exactly the reported tuples -/

/-- C2: with zero detector failures, the Merge Engine output contains exactly
the distinct (chromosome, position, reference, alternate) tuples present
across all detectors' Call Records, and each tuple is attributed to exactly
the detectors whose Call Records match it.  Settled against the
spec-modelled `merge` (§4.3), since the Merge Engine is absent from
src/eve.py. -/
theorem merge_tuples_exact_and_attribution (rs : List DetectorRunResult)
    (_hnf : ∀ r ∈ rs, isSuccess r = true) (c : String) (p : Nat)
    (r a d : String) :
    (sitesHaveTuple (merge rs) c p r a ↔ tupleReported rs c p r a) ∧
    (sitesAttribute (merge rs) c p r a d ↔ detectorReports rs c p r a d) := by
  constructor
  · unfold merge
    rw [sitesHaveTuple_mergeEntries]
    exact canonEntry_iff_tupleReported
  · unfold merge
    rw [sitesAttribute_mergeEntries]
    exact canonEntry_iff_detectorReports

/-- Witness for C2 on the sample results (all successes) at the tuple
chr1:100 A→T and detector gatk. -/
theorem merge_tuples_witness :
    (∀ r ∈ sampleResults, isSuccess r = true) ∧
    (sitesHaveTuple (merge sampleResults) "chr1" 100 "A" "T" ↔
      tupleReported sampleResults "chr1" 100 "A" "T") ∧
    (sitesAttribute (merge sampleResults) "chr1" 100 "A" "T" "gatk" ↔
      detectorReports sampleResults "chr1" 100 "A" "T" "gatk") :=
  ⟨by decide,
   (merge_tuples_exact_and_attribution sampleResults (by decide)
     "chr1" 100 "A" "T" "gatk").1,
   (merge_tuples_exact_and_attribution sampleResults (by decide)
     "chr1" 100 "A" "T" "gatk").2⟩

/-! ## C4: atomic output, success only with a finalized destination -/

/-- C4: the output is written to a temporary location and moved into place
only on full success; on any failure the destination is untouched, and if
the destination could not be finalized the run does not report success.
Settled against the spec-modelled `runPipeline`/`writeOutput` (§4.5, §7),
since the Output Writer is absent from src/eve.py. -/
theorem run_output_atomic_success_iff_finalized (finalizeOk : Bool)
    (accept : CandidateSite → Bool) (dest tmp : String)
    (rs : List DetectorRunResult) (fs : FS) (hne : dest ≠ tmp) :
    ((runPipeline finalizeOk accept dest tmp rs fs).2 = none →
      (runPipeline finalizeOk accept dest tmp rs fs).1.read dest =
        some (serializeSites ((merge rs).filter accept))) ∧
    ((runPipeline finalizeOk accept dest tmp rs fs).2 ≠ none →
      (runPipeline finalizeOk accept dest tmp rs fs).1.read dest =
        fs.read dest) ∧
    (finalizeOk = false →
      (runPipeline finalizeOk accept dest tmp rs fs).2 ≠ none) := by
  unfold runPipeline
  by_cases hc : countSuccesses rs = 0
  · rw [if_pos hc]
    refine ⟨fun h => absurd h (by simp), fun h => rfl, fun h => by simp⟩
  · rw [if_neg hc]
    simp only [writeOutput]
    cases finalizeOk with
    | true =>
      rw [if_pos rfl]
      exact ⟨fun h => FS.read_setFile_same _ _ _,
        fun h => absurd rfl h,
        fun h => absurd h (by simp)⟩
    | false =>
      rw [if_neg (by simp)]
      exact ⟨fun h => absurd h (by simp),
        fun h => FS.read_setFile_other _ _ _ _ hne,
        fun h => by simp⟩

/-- Witness for C4 at a concrete successful run and a concrete failed
finalization. -/
theorem run_output_atomic_witness :
    ((runPipeline true (fun _ => true) "out/final.vcf" "out/final.vcf.tmp"
        sampleResults (FS.mk [])).2 = none →
      (runPipeline true (fun _ => true) "out/final.vcf" "out/final.vcf.tmp"
        sampleResults (FS.mk [])).1.read "out/final.vcf" =
        some (serializeSites ((merge sampleResults).filter (fun _ => true)))) ∧
    (false = false →
      (runPipeline false (fun _ => true) "out/final.vcf" "out/final.vcf.tmp"
        sampleResults (FS.mk [])).2 ≠ none) :=
  ⟨(run_output_atomic_success_iff_finalized true (fun _ => true)
      "out/final.vcf" "out/final.vcf.tmp" sampleResults (FS.mk [])
      (by decide)).1,
   (run_output_atomic_success_iff_finalized false (fun _ => true)
      "out/final.vcf" "out/final.vcf.tmp" sampleResults (FS.mk [])
      (by decide)).2.2⟩

/-! ## C5: merge output independent of result order -/

/-- C5: for every permutation of the Detector Run Results the Merge Engine
produces identical Candidate Sites in identical order, so the serialized
final output is byte-identical.  Settled against the spec-modelled `merge`
(§4.3), since the Merge Engine is absent from src/eve.py. -/
theorem merge_independent_of_result_order (rs₁ rs₂ : List DetectorRunResult)
    (accept : CandidateSite → Bool) (h : rs₁.Perm rs₂) :
    merge rs₁ = merge rs₂ ∧
      serializeSites ((merge rs₁).filter accept) =
        serializeSites ((merge rs₂).filter accept) := by
  have hm : merge rs₁ = merge rs₂ := by
    unfold merge
    rw [canonEntries_eq_of_perm h]
  exact ⟨hm, by rw [hm]⟩

/-- Witness for C5: feeding the sample results in reverse detector order
yields the identical merge output. -/
theorem merge_independent_witness :
    (sampleResults.reverse).Perm sampleResults ∧
    merge sampleResults.reverse = merge sampleResults ∧
      serializeSites ((merge sampleResults.reverse).filter (fun _ => true)) =
        serializeSites ((merge sampleResults).filter (fun _ => true)) :=
  ⟨by decide,
   (merge_independent_of_result_order sampleResults.reverse sampleResults
     (fun _ => true) (by decide)).1,
   (merge_independent_of_result_order sampleResults.reverse sampleResults
     (fun _ => true) (by decide)).2⟩

/-! ## Lemmas: the validation of parse_args -/

/-- Whatever `validateArgs` returns with `ok`, it is the namespace it was
given, unchanged (line 192 compares, it does not assign). -/
theorem validateArgs_ok_eq {fileIsFile : String → Bool} {args ns : Namespace}
    (h : validateArgs fileIsFile args = Except.ok ns) : ns = args := by
  unfold validateArgs at h
  split at h
  · exact absurd h (by simp)
  · split at h
    · exact absurd h (by simp)
    · split at h
      · cases hb : getAttrBam args with
        | error e =>
          rw [hb] at h
          exact absurd h (by simp)
        | ok b =>
          rw [hb] at h
          exact (Except.ok.inj h).symm
      · exact (Except.ok.inj h).symm

/-- `validateArgs` raises `IOError` exactly for more than two input paths or
a `--gff` path that is not a file. -/
theorem validateArgs_ioError_iff (fileIsFile : String → Bool)
    (args : Namespace) :
    (∃ m, validateArgs fileIsFile args = Except.error (PyError.ioError m)) ↔
      (args.input_reads.length > 2 ∨ fileIsFile args.gff = false) := by
  unfold validateArgs
  by_cases h1 : args.input_reads.length > 2
  · rw [if_pos h1]
    simp [h1]
  · rw [if_neg h1]
    by_cases h2 : fileIsFile args.gff = false
    · rw [if_pos h2]
      simp [h2]
    · rw [if_neg h2]
      by_cases h3 : args.input_reads.length = 1 ∧
          strEndsWith (args.input_reads.headD "") ".bam" = true
      · rw [if_pos h3]
        cases hb : getAttrBam args with
        | error e =>
          obtain ⟨m, rfl⟩ := getAttrBam_error hb
          simp [h1, h2]
        | ok b =>
          simp [h1, h2]
      · rw [if_neg h3]
        simp [h1, h2]

/-- The validation consults the file-existence oracle only at the `--gff`
path: oracles agreeing there validate identically. -/
theorem validateArgs_oracle_congr (f₁ f₂ : String → Bool) (args : Namespace)
    (hf : f₂ args.gff = f₁ args.gff) :
    validateArgs f₂ args = validateArgs f₁ args := by
  unfold validateArgs
  rw [hf]

/-- With a single `.bam` input path and an existing `--gff` file, the
validation reaches line 192 and reading the absent `bam` attribute raises
`AttributeError`. -/
theorem validateArgs_bam_read {fileIsFile : String → Bool} {args : Namespace}
    (hone : args.input_reads.length = 1)
    (hbam : strEndsWith (args.input_reads.headD "") ".bam" = true)
    (hgff : fileIsFile args.gff = true) (hb : args.bam = none) :
    validateArgs fileIsFile args =
      Except.error
        (PyError.attributeError "EVE instance has no attribute bam") := by
  unfold validateArgs
  rw [if_neg (by omega), if_neg (by simp [hgff]), if_pos ⟨hone, hbam⟩,
    getAttrBam_none hb]

/-! ## C3: bad detector identities are silently ignored, not fatal -/

/-- Counterexample to C3: a configured detector list consisting of the
unrecognized name `gatk` (a member of the default list) makes
initialization return an empty detector list; no `ConfigurationError` is
raised, with or without config files on disk. -/
theorem unrecognized_detector_no_configurationError :
    loadDetectors (fun _ => false)
      { input_reads := ["reads.fastq"], output := none, fasta := "genome.fa",
        gff := "annotations.gff", mapper := "bwa",
        variant_detectors := "gatk", working_directory := "output/",
        bam := none } "output/20150101000000" = Except.ok [] := rfl

/-- C3 amended: a detector name that is not `mpileup` is silently skipped —
initialization never raises a `ConfigurationError` (no such error exists in
the code), and a detector list with no recognized name yields the empty
detector list instead of failing fast. -/
theorem loadDetectors_never_configurationError
    (fileExists : String → Bool) (args : Namespace) (workingDir : String) :
    (∀ e, loadDetectors fileExists args workingDir = Except.error e →
      ∃ m, e = PyError.attributeError m) ∧
    ("mpileup" ∉ splitComma args.variant_detectors →
      loadDetectors fileExists args workingDir = Except.ok []) := by
  constructor
  · intro e h
    exact loadDetectorsList_error_attributeError h
  · intro h
    exact loadDetectorsList_skip h

/-- Witness for the amended C3 at the default-like list `gatk,varscan`. -/
theorem loadDetectors_never_configurationError_witness :
    ("mpileup" ∉ splitComma "gatk,varscan") ∧
    loadDetectors (fun _ => false)
      { input_reads := ["reads.fastq"], output := none, fasta := "genome.fa",
        gff := "annotations.gff", mapper := "bwa",
        variant_detectors := "gatk,varscan", working_directory := "output/",
        bam := none } "wd" = Except.ok [] :=
  ⟨by decide,
   (loadDetectors_never_configurationError (fun _ => false)
     { input_reads := ["reads.fastq"], output := none, fasta := "genome.fa",
       gff := "annotations.gff", mapper := "bwa",
       variant_detectors := "gatk,varscan", working_directory := "output/",
       bam := none } "wd").2 (by decide)⟩

/-! ## C6: working directories collide within one second -/

/-- Counterexample to C6: two distinct runs (different invocations) started
in the same UTC second with the same `--working-directory` argument receive
the same working directory. -/
theorem createWorkingDir_same_second_collision :
    Run.mk "output/" 1433203200 0 ≠ Run.mk "output/" 1433203200 1 ∧
    createWorkingDir (Run.mk "output/" 1433203200 0) =
      createWorkingDir (Run.mk "output/" 1433203200 1) :=
  ⟨by decide, rfl⟩

/-- C6 amended: the working directory is determined by the
`--working-directory` argument and the second-resolution formatted start
timestamp alone — two runs with the same argument get distinct directories
iff their formatted timestamps differ; runs starting in the same UTC second
share a directory. -/
theorem createWorkingDir_eq_iff_same_timestamp (r₁ r₂ : Run)
    (hwd : r₁.workingDirectory = r₂.workingDirectory) :
    createWorkingDir r₁ = createWorkingDir r₂ ↔
      strftimeYmdHMS r₁.startSecond = strftimeYmdHMS r₂.startSecond := by
  constructor
  · intro h
    unfold createWorkingDir at h
    rw [hwd] at h
    exact pathJoin_right_inj (startsWithSlash_strftime _)
      (startsWithSlash_strftime _) h
  · intro h
    unfold createWorkingDir
    rw [hwd, h]

/-- Witness for the amended C6: runs one day apart get distinct directories,
runs in the same second share one. -/
theorem createWorkingDir_eq_iff_witness :
    (createWorkingDir (Run.mk "output/" 0 0) =
        createWorkingDir (Run.mk "output/" 86400 1) ↔
      strftimeYmdHMS 0 = strftimeYmdHMS 86400) ∧
    strftimeYmdHMS 0 ≠ strftimeYmdHMS 86400 :=
  ⟨createWorkingDir_eq_iff_same_timestamp (Run.mk "output/" 0 0)
    (Run.mk "output/" 86400 1) rfl, by decide⟩

/-! ## C7: detector config resolution falls back silently -/

/-- C7: for every configured detector name the chosen configuration path is
`config/detectors/<name>.yaml` when that file exists and
`config/detectors/<name>.txt` otherwise, and no error (in particular no
`ConfigNotFoundError`) arises when neither exists — with the `bam`
attribute present, the whole loading loop succeeds for any state of the
config directory. -/
theorem detector_config_resolution (fileExists : String → Bool)
    (d : String) :
    (fileExists (yamlConfPath d) = true →
      resolveDetectorConfig fileExists d = yamlConfPath d) ∧
    (fileExists (yamlConfPath d) = false →
      resolveDetectorConfig fileExists d = txtConfPath d) ∧
    (∀ (args : Namespace) (workingDir b : String), args.bam = some b →
      ∃ ds, loadDetectors fileExists args workingDir = Except.ok ds) := by
  refine ⟨?_, ?_, ?_⟩
  · intro h
    unfold resolveDetectorConfig
    rw [if_pos h]
  · intro h
    unfold resolveDetectorConfig
    rw [if_neg (by simp [h])]
  · intro args workingDir b hb
    exact loadDetectorsList_ok_of_bam hb _

/-- Witness for C7: with no config files on disk the `.txt` fallback is
chosen for `mpileup` and loading still succeeds when `bam` is present. -/
theorem detector_config_resolution_witness :
    resolveDetectorConfig (fun _ => false) "mpileup" =
      txtConfPath "mpileup" ∧
    (∃ ds, loadDetectors (fun _ => false)
      { input_reads := ["reads.fastq"], output := none, fasta := "genome.fa",
        gff := "annotations.gff", mapper := "bwa",
        variant_detectors := "gatk,mpileup,varscan",
        working_directory := "output/", bam := some "reads.bam" } "wd" =
        Except.ok ds) :=
  ⟨(detector_config_resolution (fun _ => false) "mpileup").2.1 rfl,
   (detector_config_resolution (fun _ => false) "mpileup").2.2
     { input_reads := ["reads.fastq"], output := none, fasta := "genome.fa",
       gff := "annotations.gff", mapper := "bwa",
       variant_detectors := "gatk,mpileup,varscan",
       working_directory := "output/", bam := some "reads.bam" } "wd"
     "reads.bam" rfl⟩

/-! ## C8: the bam attribute is never assigned -/

/-- Counterexample to C8 as stated: an argument list whose single input path
ends in `.bam` but whose `--gff` path is not a file raises `IOError` (the
gff check precedes line 192), not `AttributeError`. -/
theorem single_bam_with_bad_gff_raises_ioError :
    parseArgs (fun _ => false) ["reads.bam"] none "genome.fa" "missing.gff"
      "bwa" "gatk,mpileup,varscan" "output/" =
      Except.error (PyError.ioError "Invalid GFF filepath specified") := rfl

/-- C8 amended: the `bam` attribute is never assigned — every namespace
`parse_args` returns has it absent; once the earlier validations pass (at
most two inputs, existing gff), a single `.bam` input makes line 192 read
the absent attribute and raise `AttributeError`; and initialization with
`mpileup` configured and the attribute absent raises `AttributeError` the
same way, so BAM input never reaches the pipeline. -/
theorem bam_attribute_never_assigned (fileIsFile : String → Bool)
    (input_reads : List String) (output : Option String)
    (fasta gff mapper vds wd : String) :
    (∀ ns, parseArgs fileIsFile input_reads output fasta gff mapper vds wd =
        Except.ok ns → ns.bam = none) ∧
    (input_reads.length = 1 →
      strEndsWith (input_reads.headD "") ".bam" = true →
      fileIsFile gff = true →
      parseArgs fileIsFile input_reads output fasta gff mapper vds wd =
        Except.error
          (PyError.attributeError "EVE instance has no attribute bam")) ∧
    (∀ (fe : String → Bool) (args : Namespace) (workingDir : String),
      args.bam = none → "mpileup" ∈ splitComma args.variant_detectors →
      ∃ m, loadDetectors fe args workingDir =
        Except.error (PyError.attributeError m)) := by
  refine ⟨?_, ?_, ?_⟩
  · intro ns h
    rw [validateArgs_ok_eq h]
  · intro hone hbam hgff
    exact validateArgs_bam_read hone hbam hgff rfl
  · intro fe args workingDir hb hmem
    exact loadDetectorsList_mpileup_error hb hmem

/-- Witness for the amended C8: a valid gff and a single `.bam` input raise
the attribute error, and FASTQ input with `mpileup` configured crashes
initialization the same way. -/
theorem bam_attribute_never_assigned_witness :
    parseArgs (fun _ => true) ["reads.bam"] none "genome.fa" "annotations.gff"
      "bwa" "gatk,mpileup,varscan" "output/" =
      Except.error
        (PyError.attributeError "EVE instance has no attribute bam") ∧
    (∃ m, loadDetectors (fun _ => false)
      { input_reads := ["reads.fastq"], output := none, fasta := "genome.fa",
        gff := "annotations.gff", mapper := "bwa",
        variant_detectors := "gatk,mpileup,varscan",
        working_directory := "output/", bam := none } "wd" =
        Except.error (PyError.attributeError m)) :=
  ⟨(bam_attribute_never_assigned (fun _ => true) ["reads.bam"] none
      "genome.fa" "annotations.gff" "bwa" "gatk,mpileup,varscan"
      "output/").2.1 rfl (by decide) rfl,
   (bam_attribute_never_assigned (fun _ => true) ["reads.bam"] none
      "genome.fa" "annotations.gff" "bwa" "gatk,mpileup,varscan"
      "output/").2.2 (fun _ => false)
     { input_reads := ["reads.fastq"], output := none, fasta := "genome.fa",
       gff := "annotations.gff", mapper := "bwa",
       variant_detectors := "gatk,mpileup,varscan",
       working_directory := "output/", bam := none } "wd" rfl (by decide)⟩

/-! ## C9: IOError exactly for too many inputs or a bad gff path -/

/-- C9: `parse_args` raises `IOError` exactly when more than two input paths
are supplied or the `--gff` path is not an existing file; the existence of
the `--fasta`, `--output` and `--working-directory` paths is never
consulted (oracles agreeing on the gff path validate identically). -/
theorem parseArgs_ioError_characterization (fileIsFile : String → Bool)
    (input_reads : List String) (output : Option String)
    (fasta gff mapper vds wd : String) :
    ((∃ m, parseArgs fileIsFile input_reads output fasta gff mapper vds wd =
        Except.error (PyError.ioError m)) ↔
      (input_reads.length > 2 ∨ fileIsFile gff = false)) ∧
    (∀ f₂ : String → Bool, f₂ gff = fileIsFile gff →
      parseArgs f₂ input_reads output fasta gff mapper vds wd =
        parseArgs fileIsFile input_reads output fasta gff mapper vds wd) := by
  constructor
  · exact validateArgs_ioError_iff fileIsFile
      { input_reads := input_reads, output := output, fasta := fasta,
        gff := gff, mapper := mapper, variant_detectors := vds,
        working_directory := wd, bam := none }
  · intro f₂ hf
    exact validateArgs_oracle_congr fileIsFile f₂
      { input_reads := input_reads, output := output, fasta := fasta,
        gff := gff, mapper := mapper, variant_detectors := vds,
        working_directory := wd, bam := none } hf

/-- Witness for C9: three input paths raise `IOError` whatever the
filesystem; an oracle that denies every file except the gff path changes
nothing against one that affirms everything. -/
theorem parseArgs_ioError_witness :
    (∃ m, parseArgs (fun _ => true) ["a.fastq", "b.fastq", "c.fastq"] none
        "genome.fa" "annotations.gff" "bwa" "gatk" "output/" =
      Except.error (PyError.ioError m)) ∧
    parseArgs (fun s => s = "annotations.gff") ["a.fastq"] none "genome.fa"
        "annotations.gff" "bwa" "gatk" "output/" =
      parseArgs (fun _ => true) ["a.fastq"] none "genome.fa"
        "annotations.gff" "bwa" "gatk" "output/" :=
  ⟨(parseArgs_ioError_characterization (fun _ => true)
      ["a.fastq", "b.fastq", "c.fastq"] none "genome.fa" "annotations.gff"
      "bwa" "gatk" "output/").1.mpr (Or.inl (by decide)),
   (parseArgs_ioError_characterization (fun _ => true) ["a.fastq"] none
      "genome.fa" "annotations.gff" "bwa" "gatk" "output/").2
     (fun s => s = "annotations.gff") (by decide)⟩

/-! ## C10: the mapper option has no effect -/

/-- C10: whenever a mapper is loaded it is the BWA mapper, and the value of
the `-m, --mapper` option has no influence on mapper loading at all. -/
theorem mapper_option_has_no_effect :
    (∀ (args : Namespace) (m : Mapper), loadMapper args = some m →
      m = Mapper.bwaMapper) ∧
    (∀ (args : Namespace) (m₁ m₂ : String),
      loadMapper { args with mapper := m₁ } =
        loadMapper { args with mapper := m₂ }) := by
  constructor
  · intro args m h
    unfold loadMapper at h
    split at h
    · exact (Option.some.inj h).symm
    · exact absurd h (by simp)
  · intro args m₁ m₂
    rfl

/-- Witness for C10: a namespace carrying the `bam` attribute loads the BWA
mapper whatever `--mapper` said. -/
theorem mapper_option_has_no_effect_witness :
    Mapper.bwaMapper = Mapper.bwaMapper ∧
    loadMapper
        { input_reads := ["reads.bam"], output := none, fasta := "genome.fa",
          gff := "annotations.gff", mapper := "bowtie2",
          variant_detectors := "gatk", working_directory := "output/",
          bam := some "reads.bam" } =
      loadMapper
        { input_reads := ["reads.bam"], output := none, fasta := "genome.fa",
          gff := "annotations.gff", mapper := "bwa",
          variant_detectors := "gatk", working_directory := "output/",
          bam := some "reads.bam" } :=
  ⟨mapper_option_has_no_effect.1
    { input_reads := ["reads.bam"], output := none, fasta := "genome.fa",
      gff := "annotations.gff", mapper := "bowtie2",
      variant_detectors := "gatk", working_directory := "output/",
      bam := some "reads.bam" } Mapper.bwaMapper (by decide),
   mapper_option_has_no_effect.2
    { input_reads := ["reads.bam"], output := none, fasta := "genome.fa",
      gff := "annotations.gff", mapper := "",
      variant_detectors := "gatk", working_directory := "output/",
      bam := some "reads.bam" } "bowtie2" "bwa"⟩

end EVE
